import Mathlib

/-!
Verification of the retry/backoff scheduling core of the rd-monitor
repository (scripts/rd_single_fix.py, scripts/run_daemon_fix.py,
rd_lib/rd_logic.py).

Modelling conventions: the dynamic dictionaries describing torrent files
are records with optional fields (a Python falsy check such as
`f.get('id') or f.get('index')` is made explicit); wall-clock timestamps
are natural numbers drawn from an explicit schedule; the SQLite retries
table is a list of entries with INSERT OR REPLACE upsert semantics; the
floating-point token-bucket arithmetic is carried out over the rationals.
Remote API calls are oracles: an environment assigns each torrent id the
outcome of its info fetch and of its selectFiles call.
-/

namespace RdMonitor

/-- A file record inside a torrent detail (`detail.files` element). -/
structure TFile where
  id : Option Int
  index : Option Int
  path : Option String
  filename : Option String
  deriving DecidableEq, Repr

/-- A torrent detail as returned by `get_torrent_info`. -/
structure TInfo where
  status : String
  files : List TFile
  deriving DecidableEq, Repr

/-- Python `str.lower()` (ASCII case folding, the relevant range here),
modelled characterwise so that concrete inputs evaluate. -/
def strToLower (s : String) : String := ⟨s.data.map Char.toLower⟩

/-- Python `str.endswith(post)`, modelled on the character lists. -/
def strEndsWith (s post : String) : Bool := post.data.isSuffixOf s.data

/-- Python truthiness of an optional integer: `None` and `0` are falsy. -/
def pyTruthyInt : Option Int → Option Int
  | some v => if v = 0 then none else some v
  | none => none

/-- Python truthiness of an optional string: `None` and `""` are falsy. -/
def pyTruthyStr : Option String → Option String
  | some s => if s = "" then none else some s
  | none => none

/-- `str(f.get('id') or f.get('index') or '')` from rd_single_fix.py. -/
def fidOf (f : TFile) : String :=
  match pyTruthyInt f.id with
  | some v => toString v
  | none =>
    match pyTruthyInt f.index with
    | some v => toString v
    | none => ""

/-- `f.get("path") or f.get("filename") or ""` from rd_lib/rd_logic.py. -/
def pathOfRd (f : TFile) : String :=
  match pyTruthyStr f.path with
  | some s => s
  | none =>
    match pyTruthyStr f.filename with
    | some s => s
    | none => ""

/-- The subtitle extensions matched by `find_video_file_ids`. -/
def subtitleExts3 : List String := [".srt", ".ass", ".vtt"]

/-- The subtitle extensions matched by `rd_logic.is_sub`. -/
def subtitleExts2 : List String := [".srt", ".ass"]

/-- `find_video_file_ids` from scripts/rd_single_fix.py. -/
def find_video_file_ids (info : TInfo) (video_exts : List String) (include_subs : Bool) :
    List String :=
  info.files.filterMap fun f =>
    let path := strToLower (f.path.getD "")
    let fid := fidOf f
    if fid = "" then none
    else if video_exts.any (fun ext => strEndsWith path ext) then some fid
    else if include_subs && subtitleExts3.any (fun ext => strEndsWith path ext) then some fid
    else none

/-- `is_video` from rd_lib/rd_logic.py. -/
def is_video (path : String) (exts : List String) : Bool :=
  exts.any fun e => strEndsWith (strToLower path) e

/-- `is_sub` from rd_lib/rd_logic.py (matches only `.srt` and `.ass`). -/
def is_sub (path : String) : Bool :=
  strEndsWith (strToLower path) ".srt" || strEndsWith (strToLower path) ".ass"

/-- `extract_ids` from rd_lib/rd_logic.py: `int(f.get("id"))` succeeds
exactly when the id field holds an integer, otherwise the file is
skipped silently. -/
def extract_ids (info : TInfo) (video_exts : List String) (include_subs : Bool) : List Int :=
  info.files.filterMap fun f =>
    let path := pathOfRd f
    if is_video path video_exts || (include_subs && is_sub path) then f.id else none

/-- The specification's selection predicate: the lowercased path ends with
a configured video extension, or subtitles are included and it ends with
one of the given subtitle extensions. -/
def matchesVideoOrSub (video_exts sub_exts : List String) (include_subs : Bool)
    (p : String) : Bool :=
  video_exts.any (fun ext => strEndsWith p ext) ||
    (include_subs && sub_exts.any (fun ext => strEndsWith p ext))

/-- Specification form of the single-fix classifier: one pass collecting
the string identifier of every file whose identifier is non-empty and
whose lowercased path satisfies the selection predicate with subtitle
set `{.srt, .ass, .vtt}`. -/
def classify_spec (info : TInfo) (video_exts : List String) (include_subs : Bool) :
    List String :=
  info.files.filterMap fun f =>
    let fid := fidOf f
    if fid ≠ "" ∧
        matchesVideoOrSub video_exts subtitleExts3 include_subs (strToLower (f.path.getD ""))
    then some fid else none

/-- Specification form of the rd_logic classifier: integer identifiers of
files matching with subtitle set `{.srt, .ass}` only. -/
def extract_spec (info : TInfo) (video_exts : List String) (include_subs : Bool) :
    List Int :=
  info.files.filterMap fun f =>
    if matchesVideoOrSub video_exts subtitleExts2 include_subs (strToLower (pathOfRd f))
    then f.id else none

/-- `compute_backoff` (identical in rd_single_fix.py and run_daemon_fix.py):
`min(base * factor ** max(0, attempt - 1), max_backoff)`; natural
subtraction coincides with `max(0, attempt - 1)`. -/
def compute_backoff (attempt base factor max_backoff : Nat) : Nat :=
  min (base * factor ^ (attempt - 1)) max_backoff

/-- A torrent summary from a listing page. -/
structure Candidate where
  id : String
  status : String
  filename : String
  deriving DecidableEq, Repr

/-- The opaque payload stored alongside a retry entry. -/
inductive Payload where
  | raw (s : String)
  | summary (t : Candidate)
  | listSummary (t : Candidate)
  deriving DecidableEq, Repr

/-- A row of the `retries` table: {id, payload, attempts, next_try}. -/
structure RetryEntry where
  id : String
  payload : Payload
  attempts : Nat
  next_try : Nat
  deriving DecidableEq, Repr

/-- `add_retry` / `update_retry`: INSERT OR REPLACE keyed by id (the old
row is deleted, the new row appended). -/
def add_retry (store : List RetryEntry) (tid : String) (payload : Payload)
    (attempts next_try : Nat) : List RetryEntry :=
  store.filter (fun e => e.id != tid) ++ [⟨tid, payload, attempts, next_try⟩]

/-- `remove_retry`: DELETE FROM retries WHERE id = tid (no-op if absent). -/
def remove_retry (store : List RetryEntry) (tid : String) : List RetryEntry :=
  store.filter fun e => e.id != tid

/-- Ordering used by `pop_due`'s ORDER BY next_try ASC. -/
def entryLe (a b : RetryEntry) : Prop := a.next_try ≤ b.next_try

instance : DecidableRel entryLe := fun a b => Nat.decLe a.next_try b.next_try

instance : IsTotal RetryEntry entryLe := ⟨fun a b => Nat.le_total a.next_try b.next_try⟩

instance : IsTrans RetryEntry entryLe := ⟨fun _ _ _ h1 h2 => Nat.le_trans h1 h2⟩

/-- The rows satisfying `WHERE next_try <= now`. -/
def dueFilter (store : List RetryEntry) (now : Nat) : List RetryEntry :=
  store.filter fun e => decide (e.next_try ≤ now)

/-- `pop_due`: SELECT ... WHERE next_try<=now ORDER BY next_try ASC
LIMIT max_n. The second component is the table as the operation leaves
it: the statement reads only, so it is the input store. -/
def pop_due (store : List RetryEntry) (now max_n : Nat) :
    List RetryEntry × List RetryEntry :=
  (((dueFilter store now).insertionSort entryLe).take max_n, store)

/-- The token-bucket rate limiter of rd_single_fix.py, over the rationals. -/
structure TokenBucket where
  capacity : Rat
  tokens : Rat
  refill_rate : Rat
  last : Rat
  deriving DecidableEq, Repr

/-- `TokenBucket.__init__`: the bucket starts full. -/
def TokenBucket.init (capacity refill_rate now : Rat) : TokenBucket :=
  ⟨capacity, capacity, refill_rate, now⟩

/-- `TokenBucket._refill` at wall-clock time `now`. -/
def TokenBucket.refillAt (b : TokenBucket) (now : Rat) : TokenBucket :=
  let delta := now - b.last
  if 0 < delta then
    { b with tokens := min b.capacity (b.tokens + delta * b.refill_rate), last := now }
  else b

/-- `TokenBucket.consume` at wall-clock time `now`. -/
def TokenBucket.consumeAt (b : TokenBucket) (now n : Rat) : TokenBucket × Bool :=
  let br := b.refillAt now
  if n ≤ br.tokens then ({ br with tokens := br.tokens - n }, true) else (br, false)

/-- `TokenBucket.wait_for`: repeated consume attempts, one per sampled
wall-clock time; returns as soon as one succeeds. -/
def TokenBucket.wait_for (b : TokenBucket) (n : Rat) : List Rat → TokenBucket × Bool
  | [] => (b, false)
  | t :: ts =>
    let r := b.consumeAt t n
    if r.2 then (r.1, true) else r.1.wait_for n ts

/-- One bucket operation together with the wall-clock times it samples. -/
inductive BucketOp where
  | refill (now : Rat)
  | consume (now : Rat) (n : Rat)
  | wait (n : Rat) (times : List Rat)

/-- The amount a bucket operation tries to consume is non-negative. -/
def BucketOp.nonneg : BucketOp → Bool
  | .refill _ => true
  | .consume _ n => decide (0 ≤ n)
  | .wait n _ => decide (0 ≤ n)

def TokenBucket.applyOp (b : TokenBucket) : BucketOp → TokenBucket
  | .refill now => b.refillAt now
  | .consume now n => (b.consumeAt now n).1
  | .wait n times => (b.wait_for n times).1

def TokenBucket.applyOps (b : TokenBucket) (ops : List BucketOp) : TokenBucket :=
  ops.foldl TokenBucket.applyOp b

/-- The token-bucket invariant (the refill rate is part of it because it
never changes and the refill step needs its sign). -/
def TokenBucket.inv (b : TokenBucket) : Prop :=
  0 ≤ b.tokens ∧ b.tokens ≤ b.capacity ∧ 0 ≤ b.refill_rate

/-- `RealDebridClient.configure_select_rate`: installs a bucket only when
`max_per_minute` is truthy and positive; capacity `max(5, min(m, 60))`,
refill rate `m / 60` tokens per second. -/
def configure_select_rate (max_per_minute : Nat) (now : Rat)
    (cur : Option TokenBucket) : Option TokenBucket :=
  if 0 < max_per_minute then
    some (TokenBucket.init ((max 5 (min max_per_minute 60) : Nat) : Rat)
      ((max_per_minute : Rat) / 60) now)
  else cur

/-- The throttling prologue of `RealDebridClient.select_files`: with no
bucket configured the call proceeds immediately; otherwise it waits on
the bucket. The boolean reports whether the call may proceed. -/
def select_files_gate (bucket : Option TokenBucket) (n : Rat) (times : List Rat) :
    Option TokenBucket × Bool :=
  match bucket with
  | none => (none, true)
  | some b =>
    let r := b.wait_for n times
    (some r.1, r.2)

/-- Outcome of a `get_torrent_info` call, assigned by the environment. -/
inductive InfoOutcome where
  | ok (info : TInfo)
  | rateLimited (retryAfter : Option Nat)
  | err
  deriving Repr

/-- Outcome of a `select_files` call, assigned by the environment. -/
inductive SelOutcome where
  | ok
  | rateLimited (code : String) (retryAfter : Option Nat)
  | err
  deriving DecidableEq, Repr

/-- The remote service as seen by one cycle: each id has a fixed info
outcome (matching the in-memory info cache of the source, which makes
repeated fetches within a cycle coincide) and a fixed selection outcome. -/
structure Env where
  info : String → InfoOutcome
  select : String → SelOutcome

/-- The configuration consumed by `run_cycle` in rd_single_fix.py. -/
structure Cfg where
  video_exts : List String
  include_subs : Bool
  max_selects_per_minute : Nat

/-- A completed `select_files` invocation: the id, the wall-clock time,
and the value of `selects_window_start` at that moment. -/
structure SelEvent where
  tid : String
  time : Nat
  window : Nat
  deriving DecidableEq, Repr

/-- The mutable state of one `run_cycle` pass of rd_single_fix.py.
`times` is the schedule of wall-clock samples: each item the cycle works
on reads the next one. `okSelects` records the successful `select_files`
invocations, `allSelects` every invocation. -/
structure CycleState where
  store : List RetryEntry
  processedIds : List String
  selectsCount : Nat
  windowStart : Nat
  processed : Nat
  okSelects : List SelEvent
  allSelects : List SelEvent
  times : List Nat
  consecutive509 : Nat
  deriving DecidableEq, Repr

/-- The per-minute window check of `run_cycle` (both phases): reset the
window when 60 seconds have elapsed, then defer when the count has
reached the cap. Returns (window_start, count, allowed). Disabled when
the cap is zero. -/
def windowCheck (n ws cnt now : Nat) : Nat × Nat × Bool :=
  if 0 < n then
    if 60 ≤ now - ws then
      if n ≤ 0 then (now, 0, false) else (now, 0, true)
    else
      if n ≤ cnt then (ws, cnt, false) else (ws, cnt, true)
  else (ws, cnt, true)

/-- `max_per_cycle is not None and processed >= max_per_cycle`. -/
def stopReached (maxpc : Option Nat) (processed : Nat) : Bool :=
  match maxpc with
  | some m => m ≤ processed
  | none => false

/-- `max_pages is not None and page > max_pages`. -/
def pageOver (maxPages : Option Nat) (page : Nat) : Bool :=
  match maxPages with
  | some m => m < page
  | none => false

/-- Python `a or b` for the `max_n=max_per_cycle or 50` argument. -/
def pyOrNat (a : Option Nat) (b : Nat) : Nat :=
  match a with
  | some m => if m = 0 then b else m
  | none => b

/-- One iteration of the retry-drain loop of `run_cycle`
(rd_single_fix.py): skip ids already processed this cycle; on info
failure reschedule with the default backoff; remove the entry when the
classifier returns nothing; defer (re-upsert) when the per-minute window
is full; otherwise call `select_files` and handle its outcome, using the
steeper factor-3 backoff for both rate-limit and generic errors. -/
def retryStep (cfg : Cfg) (env : Env) (dry : Bool) (s : CycleState)
    (item : RetryEntry) : CycleState :=
  if item.id ∈ s.processedIds then s
  else
    let attempts := item.attempts + 1
    let now := s.times.headD 0
    let resched := now + compute_backoff attempts 60 2 3600
    let reschedSteep := now + compute_backoff attempts 60 3 3600
    let s1 := { s with times := s.times.tail }
    match env.info item.id with
    | .rateLimited _ =>
      { s1 with store := add_retry s1.store item.id item.payload attempts resched }
    | .err =>
      { s1 with store := add_retry s1.store item.id item.payload attempts resched }
    | .ok info =>
      let ids := find_video_file_ids info cfg.video_exts cfg.include_subs
      if ids.isEmpty then
        { s1 with store := remove_retry s1.store item.id, processed := s1.processed + 1 }
      else if dry then
        { s1 with store := remove_retry s1.store item.id, processed := s1.processed + 1 }
      else
        let w := windowCheck cfg.max_selects_per_minute s1.windowStart s1.selectsCount now
        let s2 := { s1 with windowStart := w.1, selectsCount := w.2.1 }
        if w.2.2 = false then
          { s2 with store := add_retry s2.store item.id item.payload attempts resched }
        else
          let s3 := { s2 with allSelects := s2.allSelects ++ [SelEvent.mk item.id now s2.windowStart] }
          match env.select item.id with
          | .ok =>
            { s3 with selectsCount := s3.selectsCount + 1,
                      processedIds := s3.processedIds ++ [item.id],
                      store := remove_retry s3.store item.id,
                      okSelects := s3.okSelects ++ [SelEvent.mk item.id now s3.windowStart],
                      processed := s3.processed + 1 }
          | .rateLimited _ _ =>
            { s3 with store := add_retry s3.store item.id item.payload attempts reschedSteep,
                      processed := s3.processed + 1 }
          | .err =>
            { s3 with store := add_retry s3.store item.id item.payload attempts reschedSteep,
                      processed := s3.processed + 1 }

/-- Phase A of `run_cycle`: drain the due entries, stopping once
`max_per_cycle` items have been processed. -/
def runRetryPhase (cfg : Cfg) (env : Env) (dry : Bool) (maxpc : Option Nat)
    (s : CycleState) (due : List RetryEntry) : CycleState :=
  due.foldl (fun s item => if stopReached maxpc s.processed then s
    else retryStep cfg env dry s item) s

/-- One iteration of the fresh-scan loop of `run_cycle`
(rd_single_fix.py): only actionable statuses, skip ids already processed
this cycle; an empty classification schedules a retry entry with
attempts 1 and the base backoff; window deferral schedules the same
entry without counting the item as processed; selection failures
schedule the same entry, with a consecutive-509 counter bump on 509. -/
def scanStep (cfg : Cfg) (env : Env) (dry persist : Bool) (maxpc : Option Nat)
    (s : CycleState) (t : Candidate) : CycleState :=
  if stopReached maxpc s.processed then s
  else if t.status != "waiting_files_selection" && t.status != "magnet_conversion" then s
  else if t.id ∈ s.processedIds then s
  else
    let now := s.times.headD 0
    let schedule := fun (store : List RetryEntry) =>
      if persist then add_retry store t.id (.summary t) 1 (now + compute_backoff 1 60 2 3600)
      else store
    let s1 := { s with times := s.times.tail }
    match env.info t.id with
    | .rateLimited _ => s1
    | .err => s1
    | .ok info =>
      let ids := find_video_file_ids info cfg.video_exts cfg.include_subs
      if ids.isEmpty then
        { s1 with store := schedule s1.store, processed := s1.processed + 1 }
      else if dry then { s1 with processed := s1.processed + 1 }
      else
        let w := windowCheck cfg.max_selects_per_minute s1.windowStart s1.selectsCount now
        let s2 := { s1 with windowStart := w.1, selectsCount := w.2.1 }
        if w.2.2 = false then
          { s2 with store := schedule s2.store }
        else
          let s3 := { s2 with allSelects := s2.allSelects ++ [SelEvent.mk t.id now s2.windowStart] }
          match env.select t.id with
          | .ok =>
            { s3 with selectsCount := s3.selectsCount + 1,
                      processedIds := s3.processedIds ++ [t.id],
                      okSelects := s3.okSelects ++ [SelEvent.mk t.id now s3.windowStart],
                      processed := s3.processed + 1 }
          | .rateLimited code _ =>
            let s4 := { s3 with store := schedule s3.store }
            let s5 := if code = "509" then { s4 with consecutive509 := s4.consecutive509 + 1 }
              else s4
            { s5 with processed := s5.processed + 1 }
          | .err =>
            { s3 with store := schedule s3.store, processed := s3.processed + 1 }

/-- Phase B of `run_cycle`: page through listings until an empty page,
the page ceiling, or the per-cycle item ceiling. -/
def runScanPhase (cfg : Cfg) (env : Env) (dry persist : Bool) (maxpc : Option Nat)
    (maxPages : Option Nat) : List (List Candidate) → Nat → CycleState → CycleState
  | [], _, s => s
  | pg :: rest, page, s =>
    if stopReached maxpc s.processed then s
    else if pageOver maxPages page then s
    else if pg.isEmpty then s
    else runScanPhase cfg env dry persist maxpc maxPages rest (page + 1)
      (pg.foldl (scanStep cfg env dry persist maxpc) s)

/-- `run_cycle` from rd_single_fix.py: pop the due retries (when
persistence is on) and drain them, then scan fresh pages. `t0` is the
cycle start time (the initial `selects_window_start`). -/
def run_cycle (cfg : Cfg) (env : Env) (dry persist : Bool) (maxpc : Option Nat)
    (maxPages : Option Nat) (t0 : Nat) (times : List Nat)
    (store0 : List RetryEntry) (pages : List (List Candidate)) : CycleState :=
  let s0 : CycleState := ⟨store0, [], 0, t0, 0, [], [], times, 0⟩
  let s1 := if persist then
      runRetryPhase cfg env dry maxpc s0 (pop_due store0 t0 (pyOrNat maxpc 50)).1
    else s0
  runScanPhase cfg env dry persist maxpc maxPages pages 1 s1

/-- Result dictionary of `fix_one` (rd_lib/rd_logic.py), restricted to
the fields run_daemon_fix.py inspects. -/
structure FixResult where
  changed : Bool
  reason : Option String
  error : Option String
  deriving DecidableEq, Repr

/-- The remote service as seen by run_daemon_fix.py: API calls raise a
message-carrying exception or succeed. -/
structure DEnv where
  info : String → Except String TInfo
  select : String → Except String Unit

/-- `fix_one` with `skip_precheck=True` (as called from the daemon's
`run_cycle`). The boolean reports whether `api.select_files` was
invoked; `changed` is true exactly when that call succeeded. -/
def fix_one (env : DEnv) (tid : String) (video_exts : List String)
    (include_subs : Bool) : FixResult × Bool :=
  match env.info tid with
  | .error e => (⟨false, some "not_found_or_error", some e⟩, false)
  | .ok info =>
    if info.status != "waiting_files_selection" then
      (⟨false, some "not_waiting", none⟩, false)
    else
      let ids := extract_ids info video_exts include_subs
      if ids.isEmpty then (⟨false, some "no_video_files", none⟩, false)
      else
        match env.select tid with
        | .error e => (⟨false, some "select_failed", some e⟩, true)
        | .ok _ =>
          match env.info tid with
          | .error e => (⟨true, some "post_select_info_missing", some e⟩, true)
          | .ok _ => (⟨true, none, none⟩, true)

/-- Python `sub in s` on strings. -/
def strContains (s sub : String) : Bool :=
  1 < (s.splitOn sub).length

/-- The daemon cycle state: the retries table, the processed counter, the
trace of `select_files` invocations (id, success), and the
consecutive-509 counter. -/
structure DState where
  store : List RetryEntry
  processed : Nat
  selects : List (String × Bool)
  consecutive509 : Nat
  deriving DecidableEq, Repr

/-- One iteration of the retry loop of `run_cycle` (run_daemon_fix.py):
no processed-set guard exists here; failures reschedule with the default
factor-2 backoff and entries are dropped after `max_retries` attempts. -/
def dretryStep (env : DEnv) (exts : List String) (subs : Bool)
    (maxpc maxRetries now : Nat) (s : DState) (item : RetryEntry) : DState :=
  if maxpc ≤ s.processed then s
  else
    let attempts := item.attempts + 1
    let r := fix_one env item.id exts subs
    let s1 := { s with selects := if r.2 then s.selects ++ [(item.id, r.1.changed)]
      else s.selects }
    let s2 :=
      if r.1.changed then { s1 with store := remove_retry s1.store item.id }
      else if maxRetries ≤ attempts then { s1 with store := remove_retry s1.store item.id }
      else
        let nxt := now + compute_backoff attempts 60 2 3600
        { s1 with store := add_retry s1.store item.id item.payload attempts nxt }
    { s2 with processed := s2.processed + 1 }

/-- One iteration of the scan loop of `run_cycle` (run_daemon_fix.py):
again no processed-set guard; a 509 select failure schedules a retry
with the 60-second base backoff, every other non-changed outcome whose
reason is not `select_failed` schedules one with a 300-second base. -/
def dscanStep (env : DEnv) (exts : List String) (subs : Bool) (maxpc now : Nat)
    (s : DState) (t : Candidate) : DState :=
  if maxpc ≤ s.processed then s
  else if t.status != "waiting_files_selection" && t.status != "magnet_conversion" then s
  else
    let r := fix_one env t.id exts subs
    let s1 := { s with selects := if r.2 then s.selects ++ [(t.id, r.1.changed)]
      else s.selects }
    let is509 := !r.1.changed && r.1.reason == some "select_failed" &&
      strContains (r.1.error.getD "") "509"
    let nxt60 := now + compute_backoff 1 60 2 3600
    let nxt300 := now + compute_backoff 1 300 2 3600
    let s2 :=
      if is509 then
        { s1 with consecutive509 := s1.consecutive509 + 1,
                  store := add_retry s1.store t.id (.listSummary t) 1 nxt60 }
      else { s1 with consecutive509 := 0 }
    let s3 :=
      if !r.1.changed && r.1.reason != some "select_failed" then
        { s2 with store := add_retry s2.store t.id (.listSummary t) 1 nxt300 }
      else s2
    { s3 with processed := s3.processed + 1 }

/-- The scan pagination of the daemon's `run_cycle`. -/
def drunScanPhase (env : DEnv) (exts : List String) (subs : Bool)
    (maxpc : Nat) (maxPages : Option Nat) (now : Nat) :
    List (List Candidate) → Nat → DState → DState
  | [], _, s => s
  | pg :: rest, page, s =>
    if maxpc ≤ s.processed then s
    else if pageOver maxPages page then s
    else if pg.isEmpty then s
    else drunScanPhase env exts subs maxpc maxPages now rest (page + 1)
      (pg.foldl (dscanStep env exts subs maxpc now) s)

/-- `run_cycle` from run_daemon_fix.py: drain the due retries, then scan
pages; there is no in-cycle processed set. -/
def drun_cycle (env : DEnv) (exts : List String) (subs : Bool)
    (store0 : List RetryEntry) (pages : List (List Candidate))
    (maxpc : Nat) (maxPages : Option Nat) (maxRetries now : Nat) : DState :=
  let s0 : DState := ⟨store0, 0, [], 0⟩
  let s1 := ((pop_due store0 now maxpc).1).foldl
    (dretryStep env exts subs maxpc maxRetries now) s0
  drunScanPhase env exts subs maxpc maxPages now pages 1 s1

/-! ## Theorems -/

/-- Claim C3: for every number of attempts, `compute_backoff` equals
`min(60 * 2^(attempts-1), 3600)` with the default factor 2 and
`min(60 * 3^(attempts-1), 3600)` with factor 3, is monotonically
non-decreasing in the attempt count for either factor, and never
exceeds the 3600-second ceiling. -/
theorem compute_backoff_characterization (a : Nat) :
    compute_backoff a 60 2 3600 = min (60 * 2 ^ (a - 1)) 3600 ∧
    compute_backoff a 60 3 3600 = min (60 * 3 ^ (a - 1)) 3600 ∧
    (∀ b, a ≤ b → compute_backoff a 60 2 3600 ≤ compute_backoff b 60 2 3600 ∧
      compute_backoff a 60 3 3600 ≤ compute_backoff b 60 3 3600) ∧
    compute_backoff a 60 2 3600 ≤ 3600 ∧ compute_backoff a 60 3 3600 ≤ 3600 := by
  refine ⟨rfl, rfl, ?_, Nat.min_le_right _ _, Nat.min_le_right _ _⟩
  intro b hab
  constructor <;>
    exact min_le_min (Nat.mul_le_mul_left _
      (Nat.pow_le_pow_right (by norm_num) (Nat.sub_le_sub_right hab 1))) le_rfl

/-- Witness for C3, evaluated at attempts 2 and 3. -/
theorem compute_backoff_characterization_witness :
    compute_backoff 2 60 2 3600 = min (60 * 2 ^ (2 - 1)) 3600 ∧
    compute_backoff 2 60 2 3600 ≤ compute_backoff 3 60 2 3600 ∧
    compute_backoff 2 60 3 3600 ≤ compute_backoff 3 60 3 3600 ∧
    compute_backoff 2 60 2 3600 ≤ 3600 :=
  ⟨(compute_backoff_characterization 2).1,
   ((compute_backoff_characterization 2).2.2.1 3 (by decide)).1,
   ((compute_backoff_characterization 2).2.2.1 3 (by decide)).2,
   (compute_backoff_characterization 2).2.2.2.1⟩

/-- The if-elif chain of the classifiers versus the combined predicate. -/
theorem ite_chain_some (fid : String) (a b : Bool) :
    (if fid = "" then (none : Option String)
     else if a then some fid else if b then some fid else none)
      = if fid ≠ "" ∧ (a || b) then some fid else none := by
  by_cases h : fid = "" <;> cases a <;> cases b <;> simp [h]

/-- The rd_logic selection condition versus the combined predicate. -/
theorem is_video_or_sub_eq (p : String) (exts : List String) (subs : Bool) :
    (is_video p exts || (subs && is_sub p))
      = matchesVideoOrSub exts subtitleExts2 subs (strToLower p) := by
  simp [is_video, is_sub, matchesVideoOrSub, subtitleExts2]

/-- Claim C1 (amended): `find_video_file_ids` selects exactly the files
whose non-empty string identifier exists and whose lowercased path ends
with a configured video extension or (with subtitles on) with one of
`.srt`, `.ass`, `.vtt`, in file order, skipping files without an
identifier; `extract_ids` does the same but with subtitle set
`{.srt, .ass}` only and integer identifiers. -/
theorem classifier_characterization (info : TInfo) (video_exts : List String)
    (include_subs : Bool) :
    find_video_file_ids info video_exts include_subs
      = classify_spec info video_exts include_subs ∧
    extract_ids info video_exts include_subs
      = extract_spec info video_exts include_subs := by
  constructor
  · unfold find_video_file_ids classify_spec
    apply List.filterMap_congr
    intro f _
    simp only [matchesVideoOrSub]
    exact ite_chain_some (fidOf f) _ _
  · unfold extract_ids extract_spec
    apply List.filterMap_congr
    intro f _
    simp only
    rw [is_video_or_sub_eq]

/-- Claim C1 counterexample: with `include_subs` on, a `.vtt` subtitle
file (identifier 1) is selected by `find_video_file_ids` but not by
`extract_ids`, refuting the claimed iff for the latter; its result is
also a list of integers, not strings. -/
theorem extract_ids_vtt_counterexample :
    strEndsWith (strToLower "movie.vtt") ".vtt" = true ∧
    find_video_file_ids (TInfo.mk "waiting_files_selection"
      [TFile.mk (some 1) none (some "movie.vtt") none]) [".mkv"] true = ["1"] ∧
    extract_ids (TInfo.mk "waiting_files_selection"
      [TFile.mk (some 1) none (some "movie.vtt") none]) [".mkv"] true = ([] : List Int) := by
  refine ⟨?_, ?_, ?_⟩ <;> rfl

/-- Claim C8: `pop_due` returns only entries of the store that are due
(`next_try <= now`), sorted ascending by `next_try`, at most `max_n` of
them, all of the due rows when no truncation occurs, and it leaves the
store unchanged. -/
theorem pop_due_characterization (store : List RetryEntry) (now max_n : Nat) :
    (∀ e ∈ (pop_due store now max_n).1, e.next_try ≤ now ∧ e ∈ store) ∧
    List.Sorted entryLe (pop_due store now max_n).1 ∧
    (pop_due store now max_n).1.length = min max_n (dueFilter store now).length ∧
    ((dueFilter store now).length ≤ max_n →
      (pop_due store now max_n).1.Perm (dueFilter store now)) ∧
    (pop_due store now max_n).2 = store := by
  refine ⟨?_, ?_, ?_, ?_, rfl⟩
  · intro e he
    have h1 : e ∈ (dueFilter store now).insertionSort entryLe :=
      List.mem_of_mem_take he
    have h2 : e ∈ dueFilter store now := (List.mem_insertionSort _).1 h1
    have h3 := List.mem_filter.1 h2
    exact ⟨of_decide_eq_true h3.2, h3.1⟩
  · exact List.Pairwise.sublist (List.take_sublist _ _)
      (List.sorted_insertionSort entryLe (dueFilter store now))
  · simp [pop_due, List.length_take, List.length_insertionSort]
  · intro h
    have hlen : ((dueFilter store now).insertionSort entryLe).length ≤ max_n := by
      rwa [List.length_insertionSort]
    rw [pop_due, List.take_of_length_le hlen]
    exact List.perm_insertionSort _ _

/-- Witness for C8 on a concrete three-row store at time 6. -/
theorem pop_due_characterization_witness :
    List.Sorted entryLe (pop_due
      [RetryEntry.mk "a" (.raw "x") 0 5, RetryEntry.mk "b" (.raw "y") 0 3,
       RetryEntry.mk "c" (.raw "z") 0 10] 6 5).1 ∧
    (pop_due [RetryEntry.mk "a" (.raw "x") 0 5, RetryEntry.mk "b" (.raw "y") 0 3,
       RetryEntry.mk "c" (.raw "z") 0 10] 6 5).1.Perm
      (dueFilter [RetryEntry.mk "a" (.raw "x") 0 5, RetryEntry.mk "b" (.raw "y") 0 3,
       RetryEntry.mk "c" (.raw "z") 0 10] 6) :=
  ⟨(pop_due_characterization _ 6 5).2.1,
   (pop_due_characterization _ 6 5).2.2.2.1 (by decide)⟩

/-- Claim C9: a positive `max_per_minute` installs a full bucket with
capacity `min(max(5, m), 60)` (the source computes `max(5, min(m, 60))`,
which coincides) and refill rate `m / 60` tokens per second; a zero
`max_per_minute` leaves no bucket installed, and `select_files` with no
bucket proceeds immediately without waiting. -/
theorem configure_select_rate_characterization (m : Nat) (now : Rat) :
    (0 < m → configure_select_rate m now none =
      some (TokenBucket.init ((min (max 5 m) 60 : Nat) : Rat) ((m : Rat) / 60) now)) ∧
    configure_select_rate 0 now none = none ∧
    (∀ n times, select_files_gate none n times = (none, true)) := by
  refine ⟨?_, rfl, fun n times => rfl⟩
  intro hm
  unfold configure_select_rate
  rw [if_pos hm]
  have hminmax : max 5 (min m 60) = min (max 5 m) 60 := by omega
  rw [hminmax]

/-- Witness for C9 at `max_per_minute = 7`. -/
theorem configure_select_rate_characterization_witness :
    configure_select_rate 7 0 none =
      some (TokenBucket.init ((min (max 5 7) 60 : Nat) : Rat) ((7 : Rat) / 60) 0) ∧
    select_files_gate none 1 [] = (none, true) :=
  ⟨(configure_select_rate_characterization 7 0).1 (by decide),
   (configure_select_rate_characterization 7 0).2.2 1 []⟩

/-- `_refill` keeps the token count within `[0, capacity]`. -/
theorem refillAt_inv {b : TokenBucket} (h : b.inv) (now : Rat) : (b.refillAt now).inv := by
  obtain ⟨h0, hc, hr⟩ := h
  unfold TokenBucket.refillAt
  dsimp only
  split
  · rename_i hd
    refine ⟨?_, ?_, hr⟩
    · exact le_min (le_trans h0 hc) (add_nonneg h0 (mul_nonneg (le_of_lt hd) hr))
    · exact min_le_left _ _
  · exact ⟨h0, hc, hr⟩

/-- `consume` keeps the token count within `[0, capacity]` for a
non-negative request. -/
theorem consumeAt_inv {b : TokenBucket} (h : b.inv) {n : Rat} (hn : 0 ≤ n) (now : Rat) :
    ((b.consumeAt now n).1).inv := by
  have hr := refillAt_inv h now
  unfold TokenBucket.consumeAt
  dsimp only
  split
  · rename_i hle
    obtain ⟨h0, hc, hrr⟩ := hr
    refine ⟨?_, ?_, hrr⟩
    · show (0 : Rat) ≤ (b.refillAt now).tokens - n
      linarith
    · show (b.refillAt now).tokens - n ≤ (b.refillAt now).capacity
      linarith
  · exact hr

/-- `wait_for` keeps the token count within `[0, capacity]` for a
non-negative request. -/
theorem wait_for_inv {b : TokenBucket} (h : b.inv) {n : Rat} (hn : 0 ≤ n)
    (ts : List Rat) : ((b.wait_for n ts).1).inv := by
  induction ts generalizing b with
  | nil => exact h
  | cons t ts ih =>
    unfold TokenBucket.wait_for
    dsimp only
    split
    · exact consumeAt_inv h hn t
    · exact ih (consumeAt_inv h hn t)

/-- Any sequence of non-negative bucket operations preserves the
invariant. -/
theorem applyOps_inv (b : TokenBucket) (hb : b.inv) (ops : List BucketOp)
    (h : ∀ op ∈ ops, op.nonneg = true) : (b.applyOps ops).inv := by
  induction ops generalizing b with
  | nil => exact hb
  | cons op ops ih =>
    have h1 : op.nonneg = true := h op (List.mem_cons_self _ _)
    have hstep : (b.applyOp op).inv := by
      cases op with
      | refill now => exact refillAt_inv hb now
      | consume now n => exact consumeAt_inv hb (of_decide_eq_true h1) now
      | wait n times => exact wait_for_inv hb (of_decide_eq_true h1) times
    exact ih (b.applyOp op) hstep (fun o ho => h o (List.mem_cons_of_mem _ ho))

/-- Claim C10: starting from any bucket satisfying the invariant
`0 <= tokens <= capacity` (with non-negative refill rate), every
sequence of `_refill`, `consume` and `wait_for` calls with non-negative
amounts preserves it; `consume(n)` returns true and debits exactly `n`
from the post-refill token count when enough tokens are available, and
otherwise returns false leaving the post-refill count unchanged. -/
theorem token_bucket_invariant (b : TokenBucket) (hb : b.inv) :
    (∀ ops, (∀ op ∈ ops, op.nonneg = true) → (b.applyOps ops).inv) ∧
    (∀ now n, 0 ≤ n →
      (n ≤ (b.refillAt now).tokens →
        b.consumeAt now n =
          ({ b.refillAt now with tokens := (b.refillAt now).tokens - n }, true)) ∧
      (¬ n ≤ (b.refillAt now).tokens → b.consumeAt now n = (b.refillAt now, false)) ∧
      ((b.consumeAt now n).1).inv) := by
  refine ⟨applyOps_inv b hb, ?_⟩
  intro now n hn
  refine ⟨?_, ?_, consumeAt_inv hb hn now⟩
  · intro hle
    unfold TokenBucket.consumeAt
    dsimp only
    rw [if_pos hle]
  · intro hgt
    unfold TokenBucket.consumeAt
    dsimp only
    rw [if_neg hgt]

/-- Witness for C10 on a bucket of capacity 10, rate 1, starting at
time 0, run through a consume, a refill and a two-sample wait. -/
theorem token_bucket_invariant_witness :
    ((TokenBucket.init 10 1 0).applyOps
      [BucketOp.consume 5 3, BucketOp.refill 6, BucketOp.wait 2 [7, 8]]).inv ∧
    (TokenBucket.init 10 1 0).consumeAt 5 3 =
      ({ (TokenBucket.init 10 1 0).refillAt 5 with
          tokens := ((TokenBucket.init 10 1 0).refillAt 5).tokens - 3 }, true) :=
  ⟨(token_bucket_invariant (TokenBucket.init 10 1 0)
      (by constructor <;> norm_num [TokenBucket.init])).1 _ (by decide),
   ((token_bucket_invariant (TokenBucket.init 10 1 0)
      (by constructor <;> norm_num [TokenBucket.init])).2 5 3 (by norm_num)).1
      (by norm_num [TokenBucket.init, TokenBucket.refillAt])⟩

/-! Concrete fixtures used by counterexamples and witnesses. -/

/-- A detail with one matching video file (identifier 4). -/
def wInfo : TInfo := ⟨"waiting_files_selection", [TFile.mk (some 4) none (some "movie.mkv") none]⟩

/-- A detail with no matching file. -/
def wInfoEmpty : TInfo := ⟨"waiting_files_selection", [TFile.mk (some 9) none (some "readme.txt") none]⟩

/-- Default configuration: `.mkv` only, no subtitles, cap 60/minute. -/
def wCfg : Cfg := ⟨[".mkv"], false, 60⟩

/-- Environment whose selections always succeed. -/
def envOkSel : Env := ⟨fun _ => .ok wInfo, fun _ => .ok⟩

/-- Environment whose selections always fail with a generic error. -/
def envErrSel : Env := ⟨fun _ => .ok wInfo, fun _ => .err⟩

/-- Environment whose details never classify. -/
def envEmptyInfo : Env := ⟨fun _ => .ok wInfoEmpty, fun _ => .ok⟩

/-- Claim C7: an empty classification is terminal in the retry-drain
phase (the entry is removed and the item counted as processed) and
transient in the fresh-scan phase (a retry entry with attempts 1 and the
base backoff, 60 seconds, is created). -/
theorem empty_classification_policy :
    (∀ (cfg : Cfg) (env : Env) (dry : Bool) (s : CycleState) (item : RetryEntry)
        (info : TInfo),
      item.id ∉ s.processedIds →
      env.info item.id = .ok info →
      (find_video_file_ids info cfg.video_exts cfg.include_subs).isEmpty = true →
      retryStep cfg env dry s item =
        { s with times := s.times.tail, store := remove_retry s.store item.id,
                 processed := s.processed + 1 }) ∧
    (∀ (cfg : Cfg) (env : Env) (dry : Bool) (maxpc : Option Nat) (s : CycleState)
        (t : Candidate) (info : TInfo),
      stopReached maxpc s.processed = false →
      (t.status != "waiting_files_selection" && t.status != "magnet_conversion") = false →
      t.id ∉ s.processedIds →
      env.info t.id = .ok info →
      (find_video_file_ids info cfg.video_exts cfg.include_subs).isEmpty = true →
      scanStep cfg env dry true maxpc s t =
        { s with times := s.times.tail,
                 store := add_retry s.store t.id (.summary t) 1
                   (s.times.headD 0 + compute_backoff 1 60 2 3600),
                 processed := s.processed + 1 }) ∧
    compute_backoff 1 60 2 3600 = 60 := by
  refine ⟨?_, ?_, rfl⟩
  · intro cfg env dry s item info hp hi hids
    unfold retryStep
    rw [if_neg hp]
    simp only [hi, hids, if_true]
  · intro cfg env dry maxpc s t info hstop hstatus hp hi hids
    unfold scanStep
    rw [hstop, hstatus]
    simp only [Bool.false_eq_true, if_false]
    rw [if_neg hp]
    simp only [hi, hids, if_true]

/-- Witness for C7: a retry entry for id `T` whose detail has no video
file is removed, and a scan candidate `T` in the same situation is
scheduled with attempts 1 and next_try 160 = 100 + 60. -/
theorem empty_classification_policy_witness :
    retryStep wCfg envEmptyInfo false
      (CycleState.mk [RetryEntry.mk "T" (.raw "p") 0 0] [] 0 0 0 [] [] [100] 0)
      (RetryEntry.mk "T" (.raw "p") 0 0) =
      { CycleState.mk [RetryEntry.mk "T" (.raw "p") 0 0] [] 0 0 0 [] [] [100] 0 with
          times := [], store := [], processed := 1 } ∧
    scanStep wCfg envEmptyInfo false true none
      (CycleState.mk [] [] 0 0 0 [] [] [100] 0)
      (Candidate.mk "T" "waiting_files_selection" "f") =
      { CycleState.mk [] [] 0 0 0 [] [] [100] 0 with
          times := [],
          store := [RetryEntry.mk "T"
            (.summary (Candidate.mk "T" "waiting_files_selection" "f")) 1 160],
          processed := 1 } := by
  constructor
  · have h := empty_classification_policy.1 wCfg envEmptyInfo false
      (CycleState.mk [RetryEntry.mk "T" (.raw "p") 0 0] [] 0 0 0 [] [] [100] 0)
      (RetryEntry.mk "T" (.raw "p") 0 0) wInfoEmpty (by decide) rfl (by decide)
    exact h.trans (by decide)
  · have h := empty_classification_policy.2.1 wCfg envEmptyInfo false none
      (CycleState.mk [] [] 0 0 0 [] [] [100] 0)
      (Candidate.mk "T" "waiting_files_selection" "f") wInfoEmpty rfl (by decide) (by decide)
      rfl (by decide)
    exact h.trans (by decide)

/-- Claim C5 (amended): in rd_single_fix's retry drain, a failed
selection attempt re-upserts the entry with attempts = stored + 1 and
next_eligible = now + backoff with base 60 and the steeper factor 3 for
BOTH rate-limit and generic errors; in run_daemon_fix's retry loop every
non-changed outcome below the attempt ceiling reschedules with the
default factor-2 backoff instead. -/
theorem retry_select_failure_backoff :
    (∀ (cfg : Cfg) (env : Env) (s : CycleState) (item : RetryEntry) (info : TInfo),
      item.id ∉ s.processedIds →
      env.info item.id = .ok info →
      (find_video_file_ids info cfg.video_exts cfg.include_subs).isEmpty = false →
      (windowCheck cfg.max_selects_per_minute s.windowStart s.selectsCount
        (s.times.headD 0)).2.2 = true →
      (env.select item.id = .err ∨ ∃ c ra, env.select item.id = .rateLimited c ra) →
      (retryStep cfg env false s item).store =
        add_retry s.store item.id item.payload (item.attempts + 1)
          (s.times.headD 0 + compute_backoff (item.attempts + 1) 60 3 3600)) ∧
    (∀ (env : DEnv) (exts : List String) (subs : Bool) (maxpc maxRetries now : Nat)
        (s : DState) (item : RetryEntry),
      s.processed < maxpc →
      (fix_one env item.id exts subs).1.changed = false →
      item.attempts + 1 < maxRetries →
      (dretryStep env exts subs maxpc maxRetries now s item).store =
        add_retry s.store item.id item.payload (item.attempts + 1)
          (now + compute_backoff (item.attempts + 1) 60 2 3600)) := by
  constructor
  · intro cfg env s item info hp hi hids hgate hfail
    unfold retryStep
    rw [if_neg hp]
    simp only [hi, hids, Bool.false_eq_true, if_false]
    rw [hgate]
    rcases hfail with hfail | ⟨c, ra, hfail⟩ <;> simp [hfail]
  · intro env exts subs maxpc maxRetries now s item hlt hch hatt
    unfold dretryStep
    rw [if_neg (Nat.not_le.2 hlt)]
    simp only [hch, Bool.false_eq_true, if_false, if_neg (Nat.not_le.2 hatt)]

/-- Claim C5 counterexample: a generic (non-rate-limit) selection error
in the retry phase of rd_single_fix reschedules with the factor-3
backoff: stored attempts 1 at time 100 yields next_try 280 = 100 + 180,
not 100 + 120 as the claimed factor-2 default would give. -/
theorem retry_generic_error_counterexample :
    (retryStep wCfg envErrSel false
      (CycleState.mk [RetryEntry.mk "T" (.raw "p") 1 0] [] 0 0 0 [] [] [100] 0)
      (RetryEntry.mk "T" (.raw "p") 1 0)).store =
      [RetryEntry.mk "T" (.raw "p") 2 280] ∧
    100 + compute_backoff 2 60 2 3600 = 220 ∧ (280 : Nat) ≠ 220 := by
  exact ⟨by decide, by decide, by decide⟩

/-- Witness for C5 on concrete inputs for both conjuncts. -/
theorem retry_select_failure_backoff_witness :
    (retryStep wCfg envErrSel false
      (CycleState.mk [RetryEntry.mk "U" (.raw "q") 2 0] [] 0 0 0 [] [] [50] 0)
      (RetryEntry.mk "U" (.raw "q") 2 0)).store =
      add_retry [RetryEntry.mk "U" (.raw "q") 2 0] "U" (.raw "q") 3
        (50 + compute_backoff 3 60 3 3600) ∧
    (dretryStep (DEnv.mk (fun _ => .ok wInfo) (fun _ => .error "HTTP 503")) [".mkv"] false
      10 5 200 (DState.mk [RetryEntry.mk "U" (.raw "q") 0 0] 0 [] 0)
      (RetryEntry.mk "U" (.raw "q") 0 0)).store =
      add_retry [RetryEntry.mk "U" (.raw "q") 0 0] "U" (.raw "q") 1
        (200 + compute_backoff 1 60 2 3600) := by
  constructor
  · exact retry_select_failure_backoff.1 wCfg envErrSel
      (CycleState.mk [RetryEntry.mk "U" (.raw "q") 2 0] [] 0 0 0 [] [] [50] 0)
      (RetryEntry.mk "U" (.raw "q") 2 0) wInfo (by decide) rfl (by decide) (by decide)
      (Or.inl rfl)
  · exact retry_select_failure_backoff.2
      (DEnv.mk (fun _ => .ok wInfo) (fun _ => .error "HTTP 503")) [".mkv"] false
      10 5 200 (DState.mk [RetryEntry.mk "U" (.raw "q") 0 0] 0 [] 0)
      (RetryEntry.mk "U" (.raw "q") 0 0) (by decide) (by decide) (by decide)

/-- Claim C6 (amended): when the per-minute window is full, the retry
phase re-upserts the due entry with its payload intact but with attempts
incremented to stored + 1 (the same increment a failure would apply) and
next_eligible = now + the default factor-2 backoff of that incremented
count; the item is not counted as processed and no selection happens. -/
theorem retry_deferral_reupsert (cfg : Cfg) (env : Env) (s : CycleState)
    (item : RetryEntry) (info : TInfo)
    (hp : item.id ∉ s.processedIds)
    (hi : env.info item.id = .ok info)
    (hids : (find_video_file_ids info cfg.video_exts cfg.include_subs).isEmpty = false)
    (hgate : (windowCheck cfg.max_selects_per_minute s.windowStart s.selectsCount
      (s.times.headD 0)).2.2 = false) :
    (retryStep cfg env false s item).store =
      add_retry s.store item.id item.payload (item.attempts + 1)
        (s.times.headD 0 + compute_backoff (item.attempts + 1) 60 2 3600) ∧
    (retryStep cfg env false s item).processed = s.processed ∧
    (retryStep cfg env false s item).okSelects = s.okSelects ∧
    (retryStep cfg env false s item).allSelects = s.allSelects := by
  unfold retryStep
  rw [if_neg hp]
  simp only [hi, hids, Bool.false_eq_true, if_false]
  rw [hgate]
  simp

/-- Claim C6 counterexample: a deferred entry with stored attempts 0 is
re-upserted with attempts 1, not with the stored value. -/
theorem deferral_attempts_counterexample :
    ((retryStep (Cfg.mk [".mkv"] false 1) envOkSel false
      (CycleState.mk [RetryEntry.mk "T" (.raw "p") 0 0] [] 1 100 0 [] [] [110] 0)
      (RetryEntry.mk "T" (.raw "p") 0 0)).store.map RetryEntry.attempts) = [1] ∧
    (RetryEntry.mk "T" (.raw "p") 0 0).attempts = 0 := by
  exact ⟨by decide, rfl⟩

/-- Witness for C6 on the same shape of input as the counterexample. -/
theorem retry_deferral_reupsert_witness :
    (retryStep (Cfg.mk [".mkv"] false 1) envOkSel false
      (CycleState.mk [RetryEntry.mk "V" (.raw "p") 3 0] [] 1 100 0 [] [] [110] 0)
      (RetryEntry.mk "V" (.raw "p") 3 0)).store =
      add_retry [RetryEntry.mk "V" (.raw "p") 3 0] "V" (.raw "p") 4
        (110 + compute_backoff 4 60 2 3600) ∧
    (retryStep (Cfg.mk [".mkv"] false 1) envOkSel false
      (CycleState.mk [RetryEntry.mk "V" (.raw "p") 3 0] [] 1 100 0 [] [] [110] 0)
      (RetryEntry.mk "V" (.raw "p") 3 0)).processed = 0 := by
  have h := retry_deferral_reupsert (Cfg.mk [".mkv"] false 1) envOkSel
    (CycleState.mk [RetryEntry.mk "V" (.raw "p") 3 0] [] 1 100 0 [] [] [110] 0)
    (RetryEntry.mk "V" (.raw "p") 3 0) wInfo (by decide) rfl (by decide) (by decide)
  exact ⟨h.1, h.2.1⟩

/-- The no-double-select invariant of a cycle state: successful select
events carry pairwise distinct ids, each recorded in the processed set. -/
def NodupInv (s : CycleState) : Prop :=
  (s.okSelects.map SelEvent.tid).Nodup ∧ ∀ e ∈ s.okSelects, e.tid ∈ s.processedIds

/-- Appending a successful select for an id outside the processed set
preserves distinctness and coverage. -/
theorem nodup_extend {okS : List SelEvent} {pids : List String} {tid : String} {t w : Nat}
    (hnd : (okS.map SelEvent.tid).Nodup) (hsub : ∀ e ∈ okS, e.tid ∈ pids)
    (hnotin : tid ∉ pids) :
    ((okS ++ [SelEvent.mk tid t w]).map SelEvent.tid).Nodup ∧
    ∀ e ∈ okS ++ [SelEvent.mk tid t w], e.tid ∈ pids ++ [tid] := by
  constructor
  · rw [List.map_append]
    refine List.Nodup.append hnd (List.nodup_singleton _) ?_
    intro a ha hb
    simp only [List.map_cons, List.map_nil, List.mem_singleton] at hb
    subst hb
    obtain ⟨e, he, htid⟩ := List.mem_map.1 ha
    exact hnotin (htid ▸ hsub e he)
  · intro e he
    rcases List.mem_append.1 he with he | he
    · exact List.mem_append.2 (Or.inl (hsub e he))
    · simp only [List.mem_singleton] at he
      subst he
      exact List.mem_append.2 (Or.inr (List.mem_singleton.2 rfl))

/-- One retry-drain iteration preserves the no-double-select invariant. -/
theorem retryStep_nodup (cfg : Cfg) (env : Env) (dry : Bool) (s : CycleState)
    (item : RetryEntry) (h : NodupInv s) : NodupInv (retryStep cfg env dry s item) := by
  unfold retryStep
  split
  · exact h
  · rename_i hnotin
    simp only [ite_self]
    repeat' split
    all_goals first
      | exact h
      | exact nodup_extend h.1 h.2 hnotin

/-- One fresh-scan iteration preserves the no-double-select invariant. -/
theorem scanStep_nodup (cfg : Cfg) (env : Env) (dry persist : Bool)
    (maxpc : Option Nat) (s : CycleState) (t : Candidate) (h : NodupInv s) :
    NodupInv (scanStep cfg env dry persist maxpc s t) := by
  unfold scanStep
  split
  · exact h
  · split
    · exact h
    · split
      · exact h
      · rename_i hnotin
        simp only [ite_self]
        repeat' split
        all_goals first
          | exact h
          | exact nodup_extend h.1 h.2 hnotin

/-- A fold preserves any property each step preserves. -/
theorem foldl_preserves {α : Type _} (P : CycleState → Prop) (f : CycleState → α → CycleState)
    (hf : ∀ s a, P s → P (f s a)) (l : List α) (s : CycleState) (h : P s) :
    P (l.foldl f s) := by
  induction l generalizing s with
  | nil => exact h
  | cons a l ih => exact ih _ (hf s a h)

/-- The whole scan phase preserves the no-double-select invariant. -/
theorem runScanPhase_nodup (cfg : Cfg) (env : Env) (dry persist : Bool)
    (maxpc maxPages : Option Nat) (pages : List (List Candidate)) (page : Nat)
    (s : CycleState) (h : NodupInv s) :
    NodupInv (runScanPhase cfg env dry persist maxpc maxPages pages page s) := by
  induction pages generalizing page s with
  | nil => exact h
  | cons pg rest ih =>
    unfold runScanPhase
    split
    · exact h
    · split
      · exact h
      · split
        · exact h
        · exact ih _ _ (foldl_preserves NodupInv _
            (fun s t hs => scanStep_nodup cfg env dry persist maxpc s t hs) pg s h)

/-- Claim C4 (amended): in rd_single_fix's `run_cycle` no torrent id has
`selectFiles` successfully invoked twice within one cycle: every
successful selection enters the processed set and both phases skip ids
already in it. (run_daemon_fix's `run_cycle` has no such guard; see the
counterexample.) -/
theorem run_cycle_no_double_select (cfg : Cfg) (env : Env) (dry persist : Bool)
    (maxpc maxPages : Option Nat) (t0 : Nat) (times : List Nat)
    (store0 : List RetryEntry) (pages : List (List Candidate)) :
    (((run_cycle cfg env dry persist maxpc maxPages t0 times store0 pages).okSelects).map
      SelEvent.tid).Nodup := by
  have h0 : NodupInv (CycleState.mk store0 [] 0 t0 0 [] [] times 0) :=
    ⟨List.nodup_nil, by intro e he; cases he⟩
  have h1 : NodupInv (if persist then
      runRetryPhase cfg env dry maxpc (CycleState.mk store0 [] 0 t0 0 [] [] times 0)
        (pop_due store0 t0 (pyOrNat maxpc 50)).1
    else CycleState.mk store0 [] 0 t0 0 [] [] times 0) := by
    split
    · exact foldl_preserves NodupInv _
        (fun s item hs => by
          split
          · exact hs
          · exact retryStep_nodup cfg env dry s item hs) _ _ h0
    · exact h0
  exact (runScanPhase_nodup cfg env dry persist maxpc maxPages pages 1 _ h1).1

/-- Claim C4 counterexample: in run_daemon_fix's `run_cycle` the same id
`T`, present both as a due retry entry and as a scan candidate whose
detail still reports `waiting_files_selection`, gets `select_files`
successfully invoked twice in one cycle. -/
theorem daemon_double_select_counterexample :
    (drun_cycle (DEnv.mk (fun _ => .ok wInfo) (fun _ => .ok ()))
      [".mkv"] false [RetryEntry.mk "T" (.raw "p") 0 0]
      [[Candidate.mk "T" "waiting_files_selection" "f"]] 10 (some 50) 5 100).selects
      = [("T", true), ("T", true)] := by
  decide

/-- The per-window accounting invariant relating the successful select
events, the running counter and the current window start: events never
lie in a future window, the events of the current window are counted by
`selects_count`, and no window holds more than `N` completed selects. -/
def WindowInvT (N : Nat) (okS : List SelEvent) (cnt ws : Nat) : Prop :=
  (∀ e ∈ okS, e.window ≤ ws) ∧
  (okS.filter (fun e => e.window == ws)).length = cnt ∧
  cnt ≤ N ∧
  ∀ w, (okS.filter (fun e => e.window == w)).length ≤ N

/-- `WindowInvT` read off a cycle state. -/
def WindowInv (N : Nat) (s : CycleState) : Prop :=
  WindowInvT N s.okSelects s.selectsCount s.windowStart

/-- `windowCheck` either keeps the window or resets it to a strictly
later start. -/
theorem windowCheck_cases (n ws cnt now : Nat) :
    ((windowCheck n ws cnt now).1 = ws ∧ (windowCheck n ws cnt now).2.1 = cnt) ∨
    ((windowCheck n ws cnt now).1 = now ∧ (windowCheck n ws cnt now).2.1 = 0 ∧
      ws + 60 ≤ now) := by
  unfold windowCheck
  split
  · split
    · rename_i hr
      right
      refine ⟨?_, ?_, by omega⟩ <;> split <;> rfl
    · left
      constructor <;> split <;> rfl
  · left
    exact ⟨rfl, rfl⟩

/-- When `windowCheck` allows a selection, the (post-reset) counter is
strictly below the cap. -/
theorem windowCheck_allowed {n ws cnt now : Nat} (hn : 0 < n) :
    (windowCheck n ws cnt now).2.2 = true → (windowCheck n ws cnt now).2.1 < n := by
  unfold windowCheck
  rw [if_pos hn]
  split
  · split
    · intro h
      cases h
    · intro _
      exact hn
  · split
    · intro h
      cases h
    · rename_i hc
      intro _
      show cnt < n
      omega

/-- The window/counter update of `windowCheck` preserves the invariant
when no event is appended. -/
theorem windowInv_gate {N ws cnt now : Nat} {okS : List SelEvent} (_hN : 0 < N)
    (h : WindowInvT N okS cnt ws) :
    WindowInvT N okS (windowCheck N ws cnt now).2.1 (windowCheck N ws cnt now).1 := by
  obtain ⟨hle, heq, hcnt, hall⟩ := h
  rcases windowCheck_cases N ws cnt now with ⟨h1, h2⟩ | ⟨h1, h2, h3⟩
  · rw [h1, h2]
    exact ⟨hle, heq, hcnt, hall⟩
  · rw [h1, h2]
    refine ⟨?_, ?_, Nat.zero_le _, hall⟩
    · intro e he
      exact le_trans (hle e he) (by omega)
    · have hnone : ∀ e ∈ okS, ¬ ((e.window == now) = true) := by
        intro e he hbeq
        have h4 : e.window = now := by simpa using hbeq
        have h5 := hle e he
        omega
      rw [List.filter_eq_nil_iff.2 hnone]
      rfl

/-- Appending a completed select in the (post-reset) current window
preserves the invariant when the gate allowed it. -/
theorem windowInv_select {N ws cnt now : Nat} {okS : List SelEvent} {tid : String}
    (hN : 0 < N) (h : WindowInvT N okS cnt ws)
    (hne : ¬ ((windowCheck N ws cnt now).2.2 = false)) :
    WindowInvT N (okS ++ [SelEvent.mk tid now (windowCheck N ws cnt now).1])
      ((windowCheck N ws cnt now).2.1 + 1) (windowCheck N ws cnt now).1 := by
  obtain ⟨hle, heq, hcnt, hall⟩ := h
  have hlt := windowCheck_allowed hN (eq_true_of_ne_false hne)
  rcases windowCheck_cases N ws cnt now with ⟨h1, h2⟩ | ⟨h1, h2, h3⟩
  · rw [h2] at hlt
    rw [h1, h2]
    refine ⟨?_, ?_, by omega, ?_⟩
    · intro e he
      rcases List.mem_append.1 he with he | he
      · exact hle e he
      · simp only [List.mem_singleton] at he
        subst he
        exact le_rfl
    · rw [List.filter_append, List.length_append, heq]
      simp
    · intro w
      rw [List.filter_append, List.length_append]
      by_cases hww : ws = w
      · subst hww
        rw [heq]
        simpa using hlt
      · have hz : (List.filter (fun e => e.window == w) [SelEvent.mk tid now ws]).length
          = 0 := by
          simp [hww]
        rw [hz]
        simpa using hall w
  · rw [h2] at hlt
    rw [h1, h2]
    have hnone : ∀ e ∈ okS, ¬ ((e.window == now) = true) := by
      intro e he hbeq
      have h4 : e.window = now := by simpa using hbeq
      have h5 := hle e he
      omega
    refine ⟨?_, ?_, by omega, ?_⟩
    · intro e he
      rcases List.mem_append.1 he with he | he
      · exact le_trans (hle e he) (by omega)
      · simp only [List.mem_singleton] at he
        subst he
        exact le_rfl
    · rw [List.filter_append, List.length_append, List.filter_eq_nil_iff.2 hnone]
      simp
    · intro w
      rw [List.filter_append, List.length_append]
      by_cases hww : now = w
      · subst hww
        rw [List.filter_eq_nil_iff.2 hnone]
        simpa using hN
      · have hz : (List.filter (fun e => e.window == w) [SelEvent.mk tid now now]).length
          = 0 := by
          simp [hww]
        rw [hz]
        simpa using hall w

/-- One retry-drain iteration preserves the window invariant. -/
theorem retryStep_window (cfg : Cfg) (env : Env) (dry : Bool) (s : CycleState)
    (item : RetryEntry) (hN : 0 < cfg.max_selects_per_minute)
    (h : WindowInv cfg.max_selects_per_minute s) :
    WindowInv cfg.max_selects_per_minute (retryStep cfg env dry s item) := by
  unfold retryStep
  split
  · exact h
  · simp only [ite_self]
    repeat' split
    all_goals first
      | exact h
      | exact windowInv_gate hN h
      | exact windowInv_select hN h (by assumption)

/-- One fresh-scan iteration preserves the window invariant. -/
theorem scanStep_window (cfg : Cfg) (env : Env) (dry persist : Bool)
    (maxpc : Option Nat) (s : CycleState) (t : Candidate)
    (hN : 0 < cfg.max_selects_per_minute)
    (h : WindowInv cfg.max_selects_per_minute s) :
    WindowInv cfg.max_selects_per_minute (scanStep cfg env dry persist maxpc s t) := by
  unfold scanStep
  split
  · exact h
  · split
    · exact h
    · split
      · exact h
      · simp only [ite_self]
        repeat' split
        all_goals first
          | exact h
          | exact windowInv_gate hN h
          | exact windowInv_select hN h (by assumption)

/-- The scan phase preserves the window invariant. -/
theorem runScanPhase_window (cfg : Cfg) (env : Env) (dry persist : Bool)
    (maxpc maxPages : Option Nat) (pages : List (List Candidate)) (page : Nat)
    (s : CycleState) (hN : 0 < cfg.max_selects_per_minute)
    (h : WindowInv cfg.max_selects_per_minute s) :
    WindowInv cfg.max_selects_per_minute
      (runScanPhase cfg env dry persist maxpc maxPages pages page s) := by
  induction pages generalizing page s with
  | nil => exact h
  | cons pg rest ih =>
    unfold runScanPhase
    split
    · exact h
    · split
      · exact h
      · split
        · exact h
        · exact ih _ _ (foldl_preserves (WindowInv cfg.max_selects_per_minute) _
            (fun s t hs => scanStep_window cfg env dry persist maxpc s t hN hs) pg s h)

/-- Claim C2 (amended): with the per-minute cap `N > 0`, at most `N`
`selectFiles` calls complete inside each fixed window (each value taken
by `selects_window_start` during the cycle); the rolling-window version
of the claim fails, see the counterexample. -/
theorem run_cycle_fixed_window_bound (cfg : Cfg) (env : Env) (dry persist : Bool)
    (maxpc maxPages : Option Nat) (t0 : Nat) (times : List Nat)
    (store0 : List RetryEntry) (pages : List (List Candidate))
    (hN : 0 < cfg.max_selects_per_minute) :
    ∀ w, (((run_cycle cfg env dry persist maxpc maxPages t0 times store0 pages).okSelects).filter
      (fun e => e.window == w)).length ≤ cfg.max_selects_per_minute := by
  have h0 : WindowInv cfg.max_selects_per_minute
      (CycleState.mk store0 [] 0 t0 0 [] [] times 0) :=
    ⟨fun e he => absurd he (List.not_mem_nil e), rfl, Nat.zero_le _, fun w => Nat.zero_le _⟩
  have h1 : WindowInv cfg.max_selects_per_minute (if persist then
      runRetryPhase cfg env dry maxpc (CycleState.mk store0 [] 0 t0 0 [] [] times 0)
        (pop_due store0 t0 (pyOrNat maxpc 50)).1
    else CycleState.mk store0 [] 0 t0 0 [] [] times 0) := by
    split
    · exact foldl_preserves (WindowInv cfg.max_selects_per_minute) _
        (fun s item hs => by
          split
          · exact hs
          · exact retryStep_window cfg env dry s item hN hs) _ _ h0
    · exact h0
  exact (runScanPhase_window cfg env dry persist maxpc maxPages pages 1 _ hN h1).2.2.2

/-- Witness for C2's amended bound: the two-entry run of the
counterexample scenario never exceeds one completed select per fixed
window. -/
theorem run_cycle_fixed_window_bound_witness :
    (((run_cycle (Cfg.mk [".mkv"] false 1) envOkSel false true none none 0 [59, 60]
      [RetryEntry.mk "t1" (.raw "p") 0 0, RetryEntry.mk "t2" (.raw "p") 0 0]
      []).okSelects).filter (fun e => e.window == 0)).length ≤ 1 :=
  run_cycle_fixed_window_bound (Cfg.mk [".mkv"] false 1) envOkSel false true none none 0
    [59, 60] [RetryEntry.mk "t1" (.raw "p") 0 0, RetryEntry.mk "t2" (.raw "p") 0 0]
    [] (by decide) 0

/-- Claim C2 counterexample: with `maxPerMinute = 1`, a cycle with two
due retries processed at times 59 and 60 completes two `selectFiles`
calls one second apart — more than `N = 1` within a rolling 60-second
window — because the fixed window resets at time 60; the token bucket
(capacity `max(5, min(1, 60)) = 5`) also admits both calls. -/
theorem rolling_window_counterexample :
    ((run_cycle (Cfg.mk [".mkv"] false 1) envOkSel false true none none 0 [59, 60]
      [RetryEntry.mk "t1" (.raw "p") 0 0, RetryEntry.mk "t2" (.raw "p") 0 0]
      []).okSelects.map SelEvent.time) = [59, 60] ∧
    60 - 59 < 60 ∧
    ((max 5 (min 1 60) : Nat) : Rat) = 5 ∧
    ((TokenBucket.init 5 ((1 : Rat) / 60) 0).consumeAt 59 1).2 = true ∧
    ((((TokenBucket.init 5 ((1 : Rat) / 60) 0).consumeAt 59 1).1).consumeAt 60 1).2
      = true := by
  refine ⟨by decide, by decide, by norm_num, ?_, ?_⟩
  · norm_num [TokenBucket.init, TokenBucket.consumeAt, TokenBucket.refillAt]
  · norm_num [TokenBucket.init, TokenBucket.consumeAt, TokenBucket.refillAt]

end RdMonitor
